import Mathlib

/-!
# Verification of the candidate data pipeline

A shallow embedding of the candidate-processing core of the CV scraper
(`utils/scraper_utils.py`, `utils/ai_utils.py`, `utils/data_utils.py`).

Candidates flow through the Python code as JSON-like dictionaries
(produced by `json.loads`), so records are modelled as association lists
of string keys to JSON-like values (`Dict` below).  Python truthiness,
`dict.get` with defaults, key-membership tests and in-place key
assignment are modelled explicitly.  The external LLM collaborator is
modelled as an oracle value (`LLMOutcome`) describing how the HTTP
call behaved; the file-system is modelled as an explicit map from file
names to written content.
-/

namespace CvScraper

/-- JSON-like values, the dynamic data the Python pipeline passes around. -/
inductive Value where
  | null
  | bool (b : Bool)
  | num (q : ℚ)
  | str (s : String)
  | arr (elems : List Value)
  | obj (fields : List (String × Value))

/-- Python truthiness (`bool(v)`): `None`, `False`, `0`, `""`, `[]`, `{}`
are falsy, everything else truthy. -/
def Value.truthy : Value → Bool
  | .null => false
  | .bool b => b
  | .num q => decide (q ≠ 0)
  | .str s => !s.isEmpty
  | .arr elems => !elems.isEmpty
  | .obj fields => !fields.isEmpty

/-- Numeric reading of a value, used where the Python code does
arithmetic or numeric comparison on it.  Python treats `True`/`False`
as `1`/`0`.  A non-numeric value in such a position raises `TypeError`
in Python (outside the collaborator contract, which promises numeric
scores); the embedding totalises that case to `0`. -/
def Value.asNum : Value → ℚ
  | .num q => q
  | .bool b => if b then 1 else 0
  | _ => 0

/-- String reading of a value, used where the Python code calls string
methods (`.lower()`) on it.  A non-string value there raises
`AttributeError` in Python (outside the record schema in
`models/candidate.py`, where these fields are `Optional[str]`); the
embedding totalises that case to `""`. -/
def Value.asStr : Value → String
  | .str s => s
  | _ => ""

/-- Python `str(v)` as used by f-string interpolation in the code.
Rendering of numbers, lists and objects is not exercised by any claim
(the interpolated fields are strings or `None` in the record schema);
numbers fall back to the canonical rational rendering. -/
def pyToStr : Value → String
  | .null => "None"
  | .bool b => if b then "True" else "False"
  | .str s => s
  | .num q => toString q
  | .arr _ => ""
  | .obj _ => ""

/-- Python list reading of a value: iterating or slicing a non-list
raises `TypeError` in Python (outside the record schema); totalised to
the empty list. -/
def Value.asList : Value → List Value
  | .arr elems => elems
  | _ => []

/-- A Python dictionary with string keys, as an association list in
insertion order (keys unique in any dict produced by `json.loads`). -/
abbrev Dict := List (String × Value)

/-- Value stored at a key, if present (`d[k]` when `k in d`). -/
def dictLookup (d : Dict) (k : String) : Option Value :=
  (d.find? (fun p => p.1 == k)).map (·.2)

/-- Python `k in d`. -/
def dictHasKey (d : Dict) (k : String) : Bool :=
  (dictLookup d k).isSome

/-- Python `d.get(k, default)`: the stored value when the key is
present (even when that value is `None`), otherwise the default. -/
def dictGetD (d : Dict) (k : String) (dflt : Value) : Value :=
  (dictLookup d k).getD dflt

/-- Python `v.get(k, default)` on a value expected to be a mapping.
`.get` on a non-mapping raises `AttributeError` in Python (outside the
record schema); totalised to the default. -/
def Value.getD (v : Value) (k : String) (dflt : Value) : Value :=
  match v with
  | .obj fields => dictGetD fields k dflt
  | _ => dflt

/-- Python `v.get(k)` (default `None`). -/
def Value.getK (v : Value) (k : String) : Value :=
  v.getD k .null

/-- Python `d[k] = v`: overwrite in place if the key exists (keys are
unique in any dict the pipeline builds), else append at the end (dict
insertion order). -/
def dictSet : Dict → String → Value → Dict
  | [], k, v => [(k, v)]
  | p :: rest, k, v => if p.1 == k then (k, v) :: rest else p :: dictSet rest k v

/-! ## `utils/scraper_utils.py` -/

/-- The `has_identifier` flag computed at the end of
`validate_candidate`: true iff `personal_info.full_name` or
`contact_info.email` is present and truthy. -/
def has_identifier (candidate : Dict) : Bool :=
  (dictHasKey candidate "personal_info"
      && ((dictGetD candidate "personal_info" .null).getK "full_name").truthy)
  || (dictHasKey candidate "contact_info"
      && ((dictGetD candidate "contact_info" .null).getK "email").truthy)

/-- `validate_candidate(candidate, required_fields)`: every required
top-level field must be present and truthy (the Python loop returns
`False` at the first failure, which agrees with `List.all`), and the
record must carry an identifier. -/
def validate_candidate (candidate : Dict) (required_fields : List String) : Bool :=
  required_fields.all
      (fun fld => dictHasKey candidate fld && (dictGetD candidate fld .null).truthy)
    && has_identifier candidate

/-- The deduplication identifier computed inside
`deduplicate_candidates`: lowercased email if `contact_info.email` is
present and truthy, else lowercased full name if
`personal_info.full_name` is present and truthy, else `None`. -/
def identifierOf (candidate : Dict) : Option String :=
  if dictHasKey candidate "contact_info"
      && ((dictGetD candidate "contact_info" .null).getK "email").truthy then
    some ((dictGetD candidate "contact_info" .null).getK "email").asStr.toLower
  else if dictHasKey candidate "personal_info"
      && ((dictGetD candidate "personal_info" .null).getK "full_name").truthy then
    some ((dictGetD candidate "personal_info" .null).getK "full_name").asStr.toLower
  else
    none

/-- `deduplicate_candidates(candidates, seen_identifiers)`.  The
mutable `seen_identifiers` set is threaded explicitly; the function
returns the unique candidates together with the final seen-set (a list
read up to membership).  The Python guard is
`if identifier and identifier not in seen` — a record whose identifier
is `None` (or an empty string, which is falsy) matches neither the
`if` nor the `elif identifier` branch and is silently dropped. -/
def deduplicate_candidates : List Dict → List String → List Dict × List String
  | [], seen => ([], seen)
  | candidate :: rest, seen =>
    match identifierOf candidate with
    | some ident =>
      if !ident.isEmpty && !seen.contains ident then
        let r := deduplicate_candidates rest (ident :: seen)
        (candidate :: r.1, r.2)
      else
        deduplicate_candidates rest seen
    | none => deduplicate_candidates rest seen

/-! ## `utils/ai_utils.py`

The two adapters wrap an HTTP call to the LLM collaborator in
`try/except`.  The observable behaviour of one call is modelled by
`LLMOutcome`:

* `success payload` — status 200 and `choices[0].message.content`
  parsed to a JSON object (`response_format json_object` promises an
  object), delivered as a `Dict`;
* `badStatus status text` — the request returned with
  `status_code ≠ 200`: the adapter takes its `else` branch;
* `exception msg` — anything inside the `try` raised (network error,
  malformed JSON body in `json.loads`, missing response fields):
  control reaches the `except` block with `str(e) = msg`.
-/

/-- Outcome of one call to the LLM collaborator. -/
inductive LLMOutcome where
  | success (payload : Dict)
  | badStatus (status : Nat) (text : String)
  | exception (msg : String)

/-- `classify_candidate_role(candidate_data)`: the candidate data only
shapes the prompt; the returned dictionary is the parsed response on
success and a fixed fallback on any failure.  The adapter never raises. -/
def classify_candidate_role (_candidate_data : Dict) (llm : LLMOutcome) : Dict :=
  match llm with
  | .success payload => payload
  | .badStatus _ _ =>
    [("matched_role", .str "Other"),
     ("confidence_score", .num 0),
     ("seniority_level", .str "Unknown"),
     ("reasoning", .str "Classification failed"),
     ("key_skills", .arr [])]
  | .exception msg =>
    [("matched_role", .str "Other"),
     ("confidence_score", .num 0),
     ("seniority_level", .str "Unknown"),
     ("reasoning", .str msg),
     ("key_skills", .arr [])]

/-- `match_candidate_to_jd(candidate_data, job_description)`: parsed
response on success, fixed fallback on any failure.  Never raises. -/
def match_candidate_to_jd (_candidate_data : Dict) (_job_description : String)
    (llm : LLMOutcome) : Dict :=
  match llm with
  | .success payload => payload
  | .badStatus _ _ =>
    [("match_score", .num 0),
     ("matched_skills", .arr []),
     ("missing_skills", .arr []),
     ("strengths", .arr []),
     ("concerns", .arr [.str "Analysis failed"]),
     ("recommendation", .str "no"),
     ("reasoning", .str "Unable to perform analysis")]
  | .exception msg =>
    [("match_score", .num 0),
     ("matched_skills", .arr []),
     ("missing_skills", .arr []),
     ("strengths", .arr []),
     ("concerns", .arr [.str msg]),
     ("recommendation", .str "no"),
     ("reasoning", .str msg)]

/-- Truthiness of the optional `job_description` argument of
`score_candidates` (`if job_description:`): `None` and `""` are falsy. -/
def jdTruthy : Option String → Bool
  | none => false
  | some s => !s.isEmpty

/-- The sort key used by `score_candidates`:
`x.get("ai_jd_match_score", 0)`, read numerically (missing key counts
as `0`). -/
def sortKey (d : Dict) : ℚ :=
  (dictGetD d "ai_jd_match_score" (.num 0)).asNum

/-- The per-record body of the `for` loop in `score_candidates`: merge
the classification onto the record; then either merge the JD match
(when a truthy job description is supplied) or default
`ai_jd_match_score` to `classification.get("confidence_score", 0) * 100`.
The collaborator is modelled by oracles mapping the request-shaping
candidate data to the outcome of its call. -/
def processOne (oracleC oracleJD : Dict → LLMOutcome) (jd : Option String)
    (candidate : Dict) : Dict :=
  let classification := classify_candidate_role candidate (oracleC candidate)
  let c1 := dictSet candidate "ai_matched_role" (dictGetD classification "matched_role" .null)
  let c2 := dictSet c1 "ai_confidence_score" (dictGetD classification "confidence_score" .null)
  let c3 := dictSet c2 "ai_seniority" (dictGetD classification "seniority_level" .null)
  let c4 := dictSet c3 "ai_reasoning" (dictGetD classification "reasoning" .null)
  let c5 := dictSet c4 "ai_key_skills" (dictGetD classification "key_skills" (.arr []))
  match jd with
  | some jdText =>
    if !jdText.isEmpty then
      let jdMatch := match_candidate_to_jd c5 jdText (oracleJD c5)
      let d1 := dictSet c5 "ai_jd_match_score" (dictGetD jdMatch "match_score" .null)
      let d2 := dictSet d1 "ai_matched_skills" (dictGetD jdMatch "matched_skills" (.arr []))
      let d3 := dictSet d2 "ai_missing_skills" (dictGetD jdMatch "missing_skills" (.arr []))
      let d4 := dictSet d3 "ai_recommendation" (dictGetD jdMatch "recommendation" .null)
      dictSet d4 "ai_jd_reasoning" (dictGetD jdMatch "reasoning" .null)
    else
      dictSet c5 "ai_jd_match_score"
        (.num ((dictGetD classification "confidence_score" (.num 0)).asNum * 100))
  | none =>
    dictSet c5 "ai_jd_match_score"
      (.num ((dictGetD classification "confidence_score" (.num 0)).asNum * 100))

/-- The comparator realised by
`sort(key=lambda x: x.get("ai_jd_match_score", 0), reverse=True)`:
in a stable descending sort, `a` may precede `b` iff
`sortKey b ≤ sortKey a`. -/
def scoreLe (a b : Dict) : Bool :=
  decide (sortKey b ≤ sortKey a)

/-- `score_candidates(candidates, job_description)`: process each
record in order, then sort with Python's stable sort, descending on
the score key (modelled by the stable `List.mergeSort`). -/
def score_candidates (oracleC oracleJD : Dict → LLMOutcome)
    (candidates : List Dict) (job_description : Option String) : List Dict :=
  (candidates.map (processOne oracleC oracleJD job_description)).mergeSort scoreLe

/-! ## `utils/data_utils.py` -/

/-- `flatten_candidate_for_csv(candidate)`: builds a fresh flat dict in
a fixed key order.  `list(set(...))` for `skill_categories` iterates a
Python set, whose order is unspecified; the embedding picks one
deduplicated order (no claim depends on it). -/
def flatten_candidate_for_csv (candidate : Dict) : Dict :=
  let personal := dictGetD candidate "personal_info" (.obj [])
  let contact := dictGetD candidate "contact_info" (.obj [])
  let skills := (dictGetD candidate "skills" (.arr [])).asList
  let languages := (dictGetD candidate "languages" (.arr [])).asList
  let education := (dictGetD candidate "education" (.arr [])).asList
  let projects := (dictGetD candidate "projects" (.arr [])).asList
  let achievements := (dictGetD candidate "achievements" (.arr [])).asList
  let hr := dictGetD candidate "hr_fields" (.obj [])
  [("full_name", personal.getD "full_name" (.str "")),
   ("job_title", personal.getD "job_title" (.str "")),
   ("level", personal.getD "level" (.str "")),
   ("gender", personal.getD "gender" (.str "")),
   ("nationality", personal.getD "nationality" (.str "")),
   ("date_of_birth", personal.getD "date_of_birth" (.str "")),
   ("address", personal.getD "address" (.str "")),
   ("years_of_experience", personal.getD "years_of_experience" (.str "")),
   ("desired_work_locations",
     .str (String.intercalate ", "
       ((personal.getD "desired_work_locations" (.arr [])).asList.map Value.asStr))),
   ("job_rank", personal.getD "job_rank" (.str "")),
   ("phone_number", contact.getD "phone_number" (.str "")),
   ("email", contact.getD "email" (.str "")),
   ("website", contact.getD "website" (.str "")),
   ("linkedin", contact.getD "linkedin" (.str "")),
   ("github", contact.getD "github" (.str "")),
   ("skills",
     .str (String.intercalate ", "
       ((skills.filter (fun s => (s.getK "name").truthy)).map
         (fun s => (s.getD "name" (.str "")).asStr)))),
   ("skill_categories",
     .str (String.intercalate ", "
       (((skills.filter (fun s => (s.getK "category").truthy)).map
         (fun s => (s.getD "category" (.str "")).asStr)).dedup))),
   ("languages",
     .str (String.intercalate ", "
       (languages.map (fun l =>
         pyToStr (l.getD "language" (.str "")) ++ " (" ++
           pyToStr (l.getD "proficiency" (.str "")) ++ ")")))),
   ("education",
     .str (match education with
       | [] => ""
       | edu :: _ =>
         pyToStr (edu.getD "degree" (.str "")) ++ " in " ++
           pyToStr (edu.getD "major" (.str "")) ++ " - " ++
           pyToStr (edu.getD "institution_name" (.str "")))),
   ("gpa",
     match education with
     | [] => .str ""
     | edu :: _ => edu.getD "gpa" (.str "")),
   ("projects_count", .num projects.length),
   ("projects_summary",
     .str (String.intercalate " | "
       ((projects.take 3).map (fun p => (p.getD "project_name" (.str "")).asStr)))),
   ("achievements_count", .num achievements.length),
   ("achievements",
     .str (String.intercalate " | "
       ((achievements.take 3).map (fun a => (a.getD "title" (.str "")).asStr)))),
   ("hiring_type", hr.getD "hiring_type" (.str "")),
   ("is_terminal", hr.getD "is_terminal" (.str "")),
   ("can_rehire", hr.getD "can_rehire" (.str "")),
   ("is_fsofter", hr.getD "is_fsofter" (.str "")),
   ("is_utilization", hr.getD "is_utilization" (.str "")),
   ("ai_matched_role", dictGetD candidate "ai_matched_role" (.str "")),
   ("ai_confidence_score", dictGetD candidate "ai_confidence_score" (.str "")),
   ("ai_jd_match_score", dictGetD candidate "ai_jd_match_score" (.str "")),
   ("ai_seniority", dictGetD candidate "ai_seniority" (.str "")),
   ("ai_recommendation", dictGetD candidate "ai_recommendation" (.str "")),
   ("ai_reasoning", dictGetD candidate "ai_reasoning" (.str ""))]

/-- The file-system visible to the writers: file name to written
content, content kept structurally as a `Value`. -/
abbrev FileSys := List (String × Value)

/-- `open(filename, "w")` followed by a full write: create or
overwrite the named file. -/
def fsWrite (fs : FileSys) (filename : String) (content : Value) : FileSys :=
  dictSet fs filename content

/-- The CSV payload of `save_candidates_to_csv`: header = sorted union
of the flattened keys, then one row per candidate in order
(`csv.DictWriter` writes each field's value; rows are kept
structurally). -/
def csvContent (candidates : List Dict) : Value :=
  let flattened := candidates.map flatten_candidate_for_csv
  let fieldnames :=
    ((flattened.flatMap (fun d => d.map (·.1))).dedup).mergeSort
      (fun a b => a ≤ b)
  .arr ((.arr (fieldnames.map .str)) ::
    flattened.map (fun d => .arr (fieldnames.map (fun fld => dictGetD d fld .null))))

/-- `save_candidates_to_csv(candidates, filename)` over an explicit
file-system state; returns the new state and the printed messages.
`if not candidates:` prints and returns without opening the file. -/
def save_candidates_to_csv (candidates : List Dict) (filename : String)
    (fs : FileSys) : FileSys × List String :=
  if candidates.isEmpty then
    (fs, ["No candidates to save."])
  else
    (fsWrite fs filename (csvContent candidates),
     ["✓ Saved " ++ toString candidates.length ++ " candidates to '" ++ filename ++ "'"])

/-- `save_candidates_to_json(candidates, filename)`: dumps the full
nested list of candidate dicts. -/
def save_candidates_to_json (candidates : List Dict) (filename : String)
    (fs : FileSys) : FileSys × List String :=
  if candidates.isEmpty then
    (fs, ["No candidates to save."])
  else
    (fsWrite fs filename (.arr (candidates.map .obj)),
     ["✓ Saved " ++ toString candidates.length ++ " candidates to '" ++ filename ++ "'"])

/-! ## Basic dictionary lemmas -/

theorem dictLookup_nil (k : String) : dictLookup [] k = none := rfl

theorem dictLookup_dictSet_self (d : Dict) (k : String) (v : Value) :
    dictLookup (dictSet d k v) k = some v := by
  induction d with
  | nil => simp [dictSet, dictLookup, List.find?]
  | cons p rest ih =>
    by_cases h : p.1 == k
    · simp [dictSet, h, dictLookup, List.find?]
    · simpa [dictSet, h, dictLookup, List.find?] using ih

/-! ## Claim C1 -/

/-- A record with both sections present but no email and no full name:
its deduplication identifier is `None`. -/
def recordNoIdentifier : Dict :=
  [("personal_info", .obj [("job_title", .str "Engineer")]),
   ("contact_info", .obj [("phone_number", .str "123")])]

/-- C1 counterexample: the claim says a record whose deduplication
identifier is `None` is always included in the output of
`deduplicate_candidates`.  On the code this is false: the guard
`if identifier and identifier not in seen` (and the `elif identifier`)
both require a truthy identifier, so `recordNoIdentifier` — whose
identifier is `None` — is dropped and the output is empty. -/
theorem dedup_drops_identifierless_counterexample :
    identifierOf recordNoIdentifier = none ∧
      (deduplicate_candidates [recordNoIdentifier] []).1 = [] := by
  constructor <;> rfl

/-- C1 amended: a record whose deduplication identifier is `None` is
never included in the output of `deduplicate_candidates`; it is always
dropped. -/
theorem dedup_never_includes_identifierless (cs : List Dict) (seen : List String)
    (c : Dict) (hc : identifierOf c = none) :
    c ∉ (deduplicate_candidates cs seen).1 := by
  induction cs generalizing seen with
  | nil => simp [deduplicate_candidates]
  | cons c0 rest ih =>
    unfold deduplicate_candidates
    cases h : identifierOf c0 with
    | none => exact ih seen
    | some ident =>
      by_cases hcond : (!ident.isEmpty && !seen.contains ident) = true
      · simp only [hcond, if_true, List.mem_cons, not_or]
        refine ⟨?_, ih (ident :: seen)⟩
        intro heq
        rw [heq] at hc
        rw [hc] at h
        exact Option.noConfusion h
      · simp only [hcond, if_false]
        exact ih seen

/-- Witness for the amended C1 theorem at a concrete record. -/
theorem dedup_never_includes_identifierless_witness :
    recordNoIdentifier ∉ (deduplicate_candidates [recordNoIdentifier] []).1 :=
  dedup_never_includes_identifierless [recordNoIdentifier] [] recordNoIdentifier rfl

/-! ## Claim C2 -/

/-- C2: `validate_candidate` returns `True` iff every required field is
present and truthy and at least one of `contact_info.email`,
`personal_info.full_name` is present and truthy (for the schema's
string-typed fields, truthy = present and non-empty).  In particular it
returns `False` when some required field is missing or falsy, and
`False` when all required fields pass but neither identifier is
present. -/
theorem validate_candidate_spec (candidate : Dict) (required_fields : List String) :
    validate_candidate candidate required_fields = true ↔
      ((∀ fld ∈ required_fields,
          dictHasKey candidate fld = true ∧
            (dictGetD candidate fld .null).truthy = true) ∧
        ((dictHasKey candidate "contact_info" = true ∧
            ((dictGetD candidate "contact_info" .null).getK "email").truthy = true) ∨
          (dictHasKey candidate "personal_info" = true ∧
            ((dictGetD candidate "personal_info" .null).getK "full_name").truthy = true))) := by
  simp only [validate_candidate, has_identifier, Bool.and_eq_true, Bool.or_eq_true,
    List.all_eq_true]
  tauto

/-- Witness for C2 at a concrete record and policy. -/
theorem validate_candidate_spec_witness :
    validate_candidate [("personal_info", Value.obj [("full_name", Value.str "Ada")])]
      ["personal_info"] = true := by
  apply (validate_candidate_spec _ _).mpr
  refine ⟨?_, Or.inr ⟨rfl, rfl⟩⟩
  intro fld hfld
  rcases List.mem_singleton.mp hfld with rfl
  exact ⟨rfl, rfl⟩

/-! ## Claim C5 -/

/-- C5: on every failing collaborator behaviour — non-success HTTP
status or any exception raised inside the `try` (network failure,
malformed JSON body, missing response fields) — the adapters never
raise and return exactly their fallback dictionaries. -/
theorem adapters_return_fallback_on_failure (candidate : Dict) (jd : String)
    (status : Nat) (txt msg : String) :
    classify_candidate_role candidate (.badStatus status txt) =
        [("matched_role", .str "Other"),
         ("confidence_score", .num 0),
         ("seniority_level", .str "Unknown"),
         ("reasoning", .str "Classification failed"),
         ("key_skills", .arr [])] ∧
      classify_candidate_role candidate (.exception msg) =
        [("matched_role", .str "Other"),
         ("confidence_score", .num 0),
         ("seniority_level", .str "Unknown"),
         ("reasoning", .str msg),
         ("key_skills", .arr [])] ∧
      match_candidate_to_jd candidate jd (.badStatus status txt) =
        [("match_score", .num 0),
         ("matched_skills", .arr []),
         ("missing_skills", .arr []),
         ("strengths", .arr []),
         ("concerns", .arr [.str "Analysis failed"]),
         ("recommendation", .str "no"),
         ("reasoning", .str "Unable to perform analysis")] ∧
      match_candidate_to_jd candidate jd (.exception msg) =
        [("match_score", .num 0),
         ("matched_skills", .arr []),
         ("missing_skills", .arr []),
         ("strengths", .arr []),
         ("concerns", .arr [.str msg]),
         ("recommendation", .str "no"),
         ("reasoning", .str msg)] :=
  ⟨rfl, rfl, rfl, rfl⟩

/-! ## Claim C8 -/

/-- C8: called with an empty candidate list, both writers leave the
file system unchanged and emit only the informational message. -/
theorem save_empty_batch_noop (filename : String) (fs : FileSys) :
    save_candidates_to_csv [] filename fs = (fs, ["No candidates to save."]) ∧
      save_candidates_to_json [] filename fs = (fs, ["No candidates to save."]) :=
  ⟨rfl, rfl⟩

/-! ## Claims C6, C7, C10 — deduplication -/

/-- The seen-set only grows: anything in the initial seen-set is still
in the final one. -/
theorem dedup_seen_mono (cs : List Dict) (seen : List String) (x : String)
    (hx : x ∈ seen) : x ∈ (deduplicate_candidates cs seen).2 := by
  induction cs generalizing seen with
  | nil => exact hx
  | cons c0 rest ih =>
    unfold deduplicate_candidates
    cases h : identifierOf c0 with
    | none => exact ih seen hx
    | some ident =>
      by_cases hcond : (!ident.isEmpty && !seen.contains ident) = true
      · simp only [hcond, if_true]
        exact ih (ident :: seen) (List.mem_cons_of_mem _ hx)
      · simp only [hcond, if_false]
        exact ih seen hx

/-- After a run, the truthy identifier of every input record is in the
final seen-set (either it was already seen, or its record was included
and the identifier added). -/
theorem dedup_seen_covers (cs : List Dict) (seen : List String) (c : Dict)
    (hc : c ∈ cs) (ident : String) (hid : identifierOf c = some ident)
    (hne : ident.isEmpty = false) :
    ident ∈ (deduplicate_candidates cs seen).2 := by
  induction cs generalizing seen with
  | nil => cases hc
  | cons c0 rest ih =>
    unfold deduplicate_candidates
    cases h : identifierOf c0 with
    | none =>
      rcases List.mem_cons.mp hc with rfl | hmem
      · rw [hid] at h; exact Option.noConfusion h
      · exact ih seen hmem
    | some ident0 =>
      by_cases hcond : (!ident0.isEmpty && !seen.contains ident0) = true
      · simp only [hcond, if_true]
        rcases List.mem_cons.mp hc with rfl | hmem
        · rw [hid] at h
          cases h
          exact dedup_seen_mono rest (ident :: seen) ident (List.mem_cons_self _ _)
        · exact ih (ident0 :: seen) hmem
      · simp only [hcond, if_false]
        rcases List.mem_cons.mp hc with rfl | hmem
        · rw [hid] at h
          cases h
          have hmem : ident ∈ seen := by
            by_contra hno
            exact hcond (by simp [hne, hno])
          exact dedup_seen_mono rest seen ident hmem
        · exact ih seen hmem

/-- If every truthy identifier occurring in the input is already seen,
the run returns no records. -/
theorem dedup_nil_of_all_seen (cs : List Dict) (seen : List String)
    (hall : ∀ c ∈ cs, ∀ ident, identifierOf c = some ident →
      ident.isEmpty = false → ident ∈ seen) :
    (deduplicate_candidates cs seen).1 = [] := by
  induction cs generalizing seen with
  | nil => rfl
  | cons c0 rest ih =>
    unfold deduplicate_candidates
    cases h : identifierOf c0 with
    | none =>
      exact ih seen (fun c hc => hall c (List.mem_cons_of_mem _ hc))
    | some ident0 =>
      have hcond : (!ident0.isEmpty && !seen.contains ident0) = false := by
        by_cases hemp : ident0.isEmpty = true
        · simp [hemp]
        · have hmem := hall c0 (List.mem_cons_self _ _) ident0 h
            (Bool.not_eq_true _ ▸ hemp)
          simp [hmem]
      simp only [hcond, if_false]
      exact ih seen (fun c hc => hall c (List.mem_cons_of_mem _ hc))

/-- C6: deduplication is idempotent across the carried seen-set —
running `deduplicate_candidates` a second time over the same input
with the seen-set produced by the first run returns no records. -/
theorem dedup_idempotent (cs : List Dict) (seen : List String) :
    (deduplicate_candidates cs ((deduplicate_candidates cs seen).2)).1 = [] :=
  dedup_nil_of_all_seen cs _
    (fun c hc ident hid hne => dedup_seen_covers cs seen c hc ident hid hne)

/-- C7: the output of `deduplicate_candidates` is a subsequence of the
input — every output record occurs in the input and output records
keep their relative input order. -/
theorem dedup_sublist (cs : List Dict) (seen : List String) :
    (deduplicate_candidates cs seen).1.Sublist cs ∧
      ∀ c ∈ (deduplicate_candidates cs seen).1, c ∈ cs := by
  have hsub : (deduplicate_candidates cs seen).1.Sublist cs := by
    induction cs generalizing seen with
    | nil => simp [deduplicate_candidates]
    | cons c0 rest ih =>
      unfold deduplicate_candidates
      cases h : identifierOf c0 with
      | none => exact (ih seen).cons c0
      | some ident =>
        by_cases hcond : (!ident.isEmpty && !seen.contains ident) = true
        · simp only [hcond, if_true]
          exact (ih (ident :: seen)).cons₂ c0
        · simp only [hcond, if_false]
          exact (ih seen).cons c0
  exact ⟨hsub, fun c hc => hsub.subset hc⟩

/-- Witness for C7 at a concrete input list. -/
theorem dedup_sublist_witness :
    List.Sublist (deduplicate_candidates [[("a", Value.str "b")]] []).1
      [[("a", Value.str "b")]] :=
  (dedup_sublist [[("a", Value.str "b")]] []).1

/-- C10: the seen-set invariant — the final seen-set holds exactly the
initial identifiers together with the identifiers of the returned
records; dropped records add nothing, and every returned record's
identifier is in the final seen-set. -/
theorem dedup_seen_set_spec (cs : List Dict) (seen : List String) (x : String) :
    x ∈ (deduplicate_candidates cs seen).2 ↔
      x ∈ seen ∨ ∃ c ∈ (deduplicate_candidates cs seen).1, identifierOf c = some x := by
  induction cs generalizing seen with
  | nil => simp [deduplicate_candidates]
  | cons c0 rest ih =>
    unfold deduplicate_candidates
    cases h : identifierOf c0 with
    | none => exact ih seen
    | some ident =>
      by_cases hcond : (!ident.isEmpty && !seen.contains ident) = true
      · simp only [hcond, if_true]
        rw [ih (ident :: seen)]
        constructor
        · rintro (hx | ⟨c, hc, hcid⟩)
          · rcases List.mem_cons.mp hx with rfl | hx'
            · exact Or.inr ⟨c0, List.mem_cons_self _ _, h⟩
            · exact Or.inl hx'
          · exact Or.inr ⟨c, List.mem_cons_of_mem _ hc, hcid⟩
        · rintro (hx | ⟨c, hc, hcid⟩)
          · exact Or.inl (List.mem_cons_of_mem _ hx)
          · rcases List.mem_cons.mp hc with rfl | hc'
            · rw [h] at hcid
              cases hcid
              exact Or.inl (List.mem_cons_self _ _)
            · exact Or.inr ⟨c, hc', hcid⟩
      · simp only [hcond, if_false]
        exact ih seen

/-- Witness for C10 at a concrete input: an identifier already seen
stays in the final seen-set. -/
theorem dedup_seen_set_spec_witness :
    "z" ∈ (deduplicate_candidates [[("a", Value.str "b")]] ["z"]).2 :=
  (dedup_seen_set_spec [[("a", Value.str "b")]] ["z"] "z").mpr
    (Or.inl (List.mem_singleton_self "z"))

/-! ## Claim C3 — ranking is a stable descending sort -/

theorem scoreLe_trans (a b c : Dict) (hab : scoreLe a b) (hbc : scoreLe b c) :
    scoreLe a c := by
  simp only [scoreLe, decide_eq_true_eq] at *
  exact le_trans hbc hab

theorem scoreLe_total (a b : Dict) : scoreLe a b || scoreLe b a := by
  simp only [scoreLe, Bool.or_eq_true, decide_eq_true_eq]
  exact le_total _ _

/-- Stability of the score sort: for any key value `q`, the records
carrying key `q` appear in the output exactly as they appeared in the
input. -/
theorem mergeSort_scoreLe_filter_key (l : List Dict) (q : ℚ) :
    (l.mergeSort scoreLe).filter (fun d => decide (sortKey d = q)) =
      l.filter (fun d => decide (sortKey d = q)) := by
  have hpw : (l.filter (fun d => decide (sortKey d = q))).Pairwise
      (fun a b => scoreLe a b = true) := by
    apply List.pairwise_of_forall_mem_list
    intro a ha b hb
    have ha' : sortKey a = q := by simpa using List.of_mem_filter ha
    have hb' : sortKey b = q := by simpa using List.of_mem_filter hb
    simp [scoreLe, ha', hb']
  have hsub : List.Sublist (l.filter (fun d => decide (sortKey d = q))) (l.mergeSort scoreLe) :=
    List.sublist_mergeSort scoreLe_trans scoreLe_total hpw (List.filter_sublist l)
  have hsub2 : List.Sublist (l.filter (fun d => decide (sortKey d = q)))
      ((l.mergeSort scoreLe).filter (fun d => decide (sortKey d = q))) := by
    have := hsub.filter (fun d => decide (sortKey d = q))
    simpa [List.filter_filter] using this
  have hperm : List.Perm ((l.mergeSort scoreLe).filter (fun d => decide (sortKey d = q)))
      (l.filter (fun d => decide (sortKey d = q))) :=
    (List.mergeSort_perm l scoreLe).filter _
  exact (hsub2.eq_of_length hperm.length_eq.symm).symm

/-- C3: `score_candidates` ranks by a stable descending sort on
`ai_jd_match_score` — the output is a permutation of the processed
records, it is pairwise descending on the sort key, records with equal
keys keep their original relative order, and a record missing the key
sorts as key `0`. -/
theorem score_candidates_stable_sort (oracleC oracleJD : Dict → LLMOutcome)
    (candidates : List Dict) (jd : Option String) :
    List.Perm (score_candidates oracleC oracleJD candidates jd)
        (candidates.map (processOne oracleC oracleJD jd)) ∧
      (score_candidates oracleC oracleJD candidates jd).Pairwise
        (fun a b => sortKey b ≤ sortKey a) ∧
      (∀ q : ℚ,
        (score_candidates oracleC oracleJD candidates jd).filter
            (fun d => decide (sortKey d = q)) =
          (candidates.map (processOne oracleC oracleJD jd)).filter
            (fun d => decide (sortKey d = q))) ∧
      (∀ d : Dict, dictLookup d "ai_jd_match_score" = none → sortKey d = 0) := by
  refine ⟨List.mergeSort_perm _ _, ?_, fun q => mergeSort_scoreLe_filter_key _ q, ?_⟩
  · have := List.sorted_mergeSort scoreLe_trans scoreLe_total
      (candidates.map (processOne oracleC oracleJD jd))
    exact this.imp (fun h => of_decide_eq_true h)
  · intro d hd
    simp [sortKey, dictGetD, hd, Value.asNum]

/-- Witness for C3 at a concrete record: a record without the score
key has sort key `0`. -/
theorem score_candidates_stable_sort_witness : sortKey [] = 0 :=
  (score_candidates_stable_sort (fun _ => .exception "down") (fun _ => .exception "down")
    [] none).2.2.2 [] rfl

/-! ## Claim C4 — default score without a job description -/

/-- C4: when no truthy job description is supplied, every processed
record gets `ai_jd_match_score = classification confidence_score * 100`
(`0` default when the classification lacks the key), and every record
in the output of `score_candidates` has the key set. -/
theorem score_default_without_jd (oracleC oracleJD : Dict → LLMOutcome)
    (jd : Option String) (hjd : jdTruthy jd = false) :
    (∀ c : Dict,
        dictLookup (processOne oracleC oracleJD jd c) "ai_jd_match_score" =
          some (.num
            ((dictGetD (classify_candidate_role c (oracleC c)) "confidence_score"
                (.num 0)).asNum * 100))) ∧
      (∀ (candidates : List Dict) (d : Dict),
        d ∈ score_candidates oracleC oracleJD candidates jd →
          (dictLookup d "ai_jd_match_score").isSome = true) := by
  have hmain : ∀ c : Dict,
      dictLookup (processOne oracleC oracleJD jd c) "ai_jd_match_score" =
        some (.num
          ((dictGetD (classify_candidate_role c (oracleC c)) "confidence_score"
              (.num 0)).asNum * 100)) := by
    intro c
    match jd, hjd with
    | none, _ =>
      simp only [processOne]
      exact dictLookup_dictSet_self _ _ _
    | some jdText, hjd =>
      have hempty : jdText.isEmpty = true := by
        simpa [jdTruthy] using hjd
      simp only [processOne, hempty, Bool.not_true, Bool.false_eq_true, if_false]
      exact dictLookup_dictSet_self _ _ _
  refine ⟨hmain, fun candidates d hd => ?_⟩
  have hd' : d ∈ candidates.map (processOne oracleC oracleJD jd) := by
    have := List.mem_mergeSort.mp hd
    simpa [score_candidates] using this
  rcases List.mem_map.mp hd' with ⟨c, _, rfl⟩
  rw [hmain c]
  rfl

/-- Concrete exercise of C4: a collaborator that always raises, no job
description, one empty record — the fallback classification has
confidence `0`, so the default score is `0`. -/
def failingOracle : Dict → LLMOutcome :=
  fun _ => .exception "connection refused"

/-- Witness for C4 at a concrete input. -/
theorem score_default_without_jd_witness :
    dictLookup (processOne failingOracle failingOracle none []) "ai_jd_match_score" =
      some (.num 0) := by
  have h := (score_default_without_jd failingOracle failingOracle none rfl).1 []
  have hconf : dictGetD (classify_candidate_role [] (failingOracle []))
      "confidence_score" (Value.num 0) = Value.num 0 := rfl
  rw [hconf] at h
  simpa [Value.asNum] using h

/-! ## Claim C9 — CSV flattening is lossy by truncation -/

/-- C9: for every candidate, the flattened CSV row takes its
`education` and `gpa` columns from the first education entry only (its
degree, major, institution and GPA), joins only the first 3 project
names into `projects_summary` and only the first 3 achievement titles
into `achievements`, however long the underlying lists are, while
`projects_count` and `achievements_count` are the full list lengths. -/
theorem flatten_candidate_truncates (candidate : Dict) :
    dictLookup (flatten_candidate_for_csv candidate) "projects_count" =
        some (.num ((dictGetD candidate "projects" (.arr [])).asList.length)) ∧
      dictLookup (flatten_candidate_for_csv candidate) "projects_summary" =
        some (.str (String.intercalate " | "
          (((dictGetD candidate "projects" (.arr [])).asList.take 3).map
            (fun p => (p.getD "project_name" (.str "")).asStr)))) ∧
      dictLookup (flatten_candidate_for_csv candidate) "achievements_count" =
        some (.num ((dictGetD candidate "achievements" (.arr [])).asList.length)) ∧
      dictLookup (flatten_candidate_for_csv candidate) "achievements" =
        some (.str (String.intercalate " | "
          (((dictGetD candidate "achievements" (.arr [])).asList.take 3).map
            (fun a => (a.getD "title" (.str "")).asStr)))) ∧
      dictLookup (flatten_candidate_for_csv candidate) "education" =
        some (.str
          (match (dictGetD candidate "education" (.arr [])).asList with
          | [] => ""
          | edu :: _ =>
            pyToStr (edu.getD "degree" (.str "")) ++ " in " ++
              pyToStr (edu.getD "major" (.str "")) ++ " - " ++
              pyToStr (edu.getD "institution_name" (.str "")))) ∧
      dictLookup (flatten_candidate_for_csv candidate) "gpa" =
        some
          (match (dictGetD candidate "education" (.arr [])).asList with
          | [] => Value.str ""
          | edu :: _ => edu.getD "gpa" (.str "")) :=
  ⟨rfl, rfl, rfl, rfl, rfl, rfl⟩

end CvScraper
